import Mathlib

/-!
Shallow embedding of the pay-per-access payment protocol implemented in
`src/uagentdemo/merchant.py` (provider side) and `src/uagentdemo/src/client.py`
(requester side), together with the shared message models of
`src/uagentdemo/models.py`.

External collaborators (the Solana RPC client, the base58 codec, the x402 EVM
facilitator SDK and the uagents transport) are modelled as oracles: the
embedded functions consume their answers through explicit parameters and
report the ledger operations they perform as an explicit trace, so that
"no broadcast happened" and "the polling loop was never entered" are facts
about a returned list rather than about hidden effects.
-/

namespace UAgentDemo

/-- Message model `ResourceRequest` from `models.py`. -/
structure ResourceRequest where
  resource_id : String
  requester_address : Option String
  deriving DecidableEq, Repr

/-- Message model `PaymentRequired` from `models.py`. -/
structure PaymentRequired where
  resource_id : String
  price : String
  pay_to_address : String
  network : String
  token_address : Option String
  token_decimals : Option Nat
  token_name : Option String
  payment_id : String
  message : String
  deriving DecidableEq, Repr

/-- Message model `PaymentProof` from `models.py`. -/
structure PaymentProof where
  payment_id : String
  resource_id : String
  transaction_hash : String
  from_address : String
  to_address : String
  amount : String
  network : String
  deriving DecidableEq, Repr

/-- The opaque premium payload dictionaries returned by
`get_premium_resource` in `merchant.py`, abstracted to tags: the claims only
need to know which payload (if any) is attached, not its weather fields. -/
inductive Payload
  | premiumWeatherData
  | premiumAnalyticsData
  | premiumApiData
  | missingResource (resource_id : String)
  deriving DecidableEq, Repr

/-- Message model `ResourceAccess` from `models.py`; `resource_data` holds the
abstracted payload. -/
structure ResourceAccess where
  success : Bool
  payment_id : String
  resource_id : String
  resource_data : Option Payload
  message : String
  verified_at : String
  deriving DecidableEq, Repr

/-- Message model `ResourceError` from `models.py`. -/
structure ResourceError where
  success : Bool
  payment_id : Option String
  resource_id : String
  error : String
  message : String
  deriving DecidableEq, Repr

/-- A reply sent by the merchant over the transport (`ctx.send`). -/
inductive Reply
  | paymentRequired (m : PaymentRequired)
  | resourceAccess (m : ResourceAccess)
  | resourceError (m : ResourceError)
  deriving DecidableEq, Repr

/-- The `EIP712Domain` component of an x402 token price (`merchant.py`,
catalog entry for `premium_data`). -/
structure EIP712Domain where
  name : String
  version : String
  deriving DecidableEq, Repr

/-- The `TokenAsset` component of an x402 token price. -/
structure TokenAsset where
  address : String
  decimals : Nat
  eip712 : EIP712Domain
  deriving DecidableEq, Repr

/-- The x402 `TokenAmount` price object: `amount` is the amount in minor
units of the token, rendered as a decimal string, exactly as in the source. -/
structure TokenAmount where
  amount : String
  asset : TokenAsset
  deriving DecidableEq, Repr

/-- A catalog price is either a plain Python string (e.g. `"$0.001"`) or a
`TokenAmount` object; the source stores both shapes in the same dict field. -/
inductive PriceVal
  | strPrice (s : String)
  | tokenPrice (t : TokenAmount)
  deriving DecidableEq, Repr

/-- Rendering of Python `str()` on a pydantic `TokenAmount` object:
`str(model)` joins the `field=repr(value)` pairs with spaces and renders
nested models with their class name, which is what
`str(resource_info["price"])` produces in `handle_resource_request`.
The exact spelling is only used to show the result is not a minor-unit
integer string. -/
def TokenAmount.pyStr (t : TokenAmount) : String :=
  "amount=\x27" ++ t.amount ++ "\x27 asset=TokenAsset(address=\x27" ++ t.asset.address ++
    "\x27, decimals=" ++ toString t.asset.decimals ++ ", eip712=EIP712Domain(name=\x27" ++
    t.asset.eip712.name ++ "\x27, version=\x27" ++ t.asset.eip712.version ++ "\x27))"

/-- Python `str()` applied to a catalog price value (`str` on a string is the
identity; on a `TokenAmount` it is the pydantic rendering). -/
def pyStrPrice : PriceVal → String
  | .strPrice s => s
  | .tokenPrice t => t.pyStr

/-- The `price` field of the `PaymentRequired` message built in
`handle_resource_request`:
`str(resource_info["price"]) if isinstance(resource_info["price"], str) else "0.01 USDC"`. -/
def requiredPriceString : PriceVal → String
  | .strPrice s => s
  | .tokenPrice _ => "0.01 USDC"

/-- One entry of the resource dict built inside `get_price_for_resource`
(`merchant.py`): price, the optional token keys, and the description. -/
structure ResourceInfo where
  price : PriceVal
  token_address : Option String
  token_decimals : Option Nat
  token_name : Option String
  description : String
  deriving DecidableEq, Repr

/-- The fixed `TokenAmount` configured for `premium_data` in
`get_price_for_resource`: 10000 minor units of 6-decimal USDC. -/
def usdcPremiumDataPrice : TokenAmount :=
  { amount := "10000"
    asset := { address := "0x036CbD53842c5426634e7929541eC2318f3dCF7e"
               decimals := 6
               eip712 := { name := "USDC", version := "2" } } }

/-- `PayAIFacilitatorService.get_price_for_resource` (`merchant.py` lines
79-111): the static three-entry catalog; an unknown id raises `ValueError`,
modelled as `none`. -/
def get_price_for_resource (resource_id : String) : Option ResourceInfo :=
  if resource_id = "premium_weather" then
    some { price := .strPrice "$0.001", token_address := none, token_decimals := none,
           token_name := none, description := "Real-time premium weather data" }
  else if resource_id = "premium_data" then
    some { price := .tokenPrice usdcPremiumDataPrice,
           token_address := some "0x036CbD53842c5426634e7929541eC2318f3dCF7e",
           token_decimals := some 6, token_name := some "USDC",
           description := "Premium analytics data" }
  else if resource_id = "premium_api" then
    some { price := .strPrice "$0.005", token_address := none, token_decimals := none,
           token_name := none, description := "Premium API access" }
  else none

/-- `get_premium_resource` (`merchant.py` lines 396-456), with payload dicts
abstracted to tags; an unknown id yields the error dict. -/
def get_premium_resource (resource_id : String) : Payload :=
  if resource_id = "premium_weather" then .premiumWeatherData
  else if resource_id = "premium_data" then .premiumAnalyticsData
  else if resource_id = "premium_api" then .premiumApiData
  else .missingResource resource_id

/-- The payment-record dict stored under `payment_{payment_id}` in
`ctx.storage` (`handle_resource_request` lines 572-579). The keys that the
proof handler may add later (`verified_at`, `transaction_hash`, `error`) are
carried as `Option` fields initialised to `none`. -/
structure PaymentData where
  resource_id : String
  requester : String
  created_at : String
  price : String
  status : String
  verified_at : Option String
  transaction_hash : Option String
  error : Option String
  deriving DecidableEq, Repr

/-- The merchant's `ctx.storage` key-value space, restricted to the
payment-record keys; a `set` prepends and `get` returns the most recent
binding, so overwrites shadow older values. -/
abbrev Store := List (String × PaymentData)

/-- `ctx.storage.get(key)`. -/
def storageGet (key : String) (store : Store) : Option PaymentData :=
  (store.find? (fun kv => kv.1 == key)).map (fun kv => kv.2)

/-- `ctx.storage.set(key, value)`. -/
def storageSet (key : String) (value : PaymentData) (store : Store) : Store :=
  (key, value) :: store

/-- Python `str.startswith`. -/
def startswith (s p : String) : Bool :=
  p.data.isPrefixOf s.data

/-- Python string slicing `s[:n]`. -/
def strTake (s : String) (n : Nat) : String :=
  String.mk (s.data.take n)

/-- Outcome of `rpc_client.send_raw_transaction` as inspected by
`_verify_and_settle_solana` (lines 188-226): a response with `.value` (the
signature), a response with `.error`, a response of unexpected shape, or a
raised exception. -/
inductive BroadcastResult
  | accepted (txSig : String)
  | rejected (err : String)
  | unexpectedResp (msg : String)
  | broadcastExn (err : String)
  deriving DecidableEq, Repr

/-- One answer of `rpc_client.get_signature_statuses` as inspected by the
polling loop: `noStatus` covers both an absent `status.value[0]` and a raised
exception (the source treats both as "keep waiting"), `statusInfo` carries the
`confirmation_status` and `err` fields. -/
inductive PollResult
  | noStatus
  | statusInfo (confirmation_status : Option String) (err : Option String)
  deriving DecidableEq, Repr

/-- A ledger operation performed by the settlement verifier, recorded in
order. -/
inductive LedgerOp
  | broadcastOp
  | pollOp (attempt : Nat)
  | getTransactionOp
  deriving DecidableEq, Repr

/-- The dict returned by the verification helpers of `merchant.py`:
`success`, `verified`, `settled`, and the optional `error`,
`transaction_signature` and `message` keys (absent keys are `none`/`false`). -/
structure VerifyResult where
  success : Bool
  verified : Bool
  settled : Bool
  error : Option String
  transaction_signature : Option String
  message : Option String
  deriving DecidableEq, Repr

/-- Oracle for the external Solana RPC node (and, for non-Solana networks,
the x402 EVM facilitator): `decodeErr` is the base58-decode outcome for a
given transaction string, `broadcast` the node's answer to
`send_raw_transaction`, `poll` the status answer at each one-second attempt,
`getTxOk` whether `get_transaction` succeeds after confirmation, and
`evmResult` the answer of the external x402 SDK path. -/
structure Ledger where
  decodeErr : String → Option String
  broadcast : String → BroadcastResult
  poll : Nat → PollResult
  getTxOk : Bool
  evmResult : VerifyResult

/-- `max_attempts = 60` (`merchant.py` line 229). -/
def max_attempts : Nat := 60

/-- The timeout error text
`f"Transaction confirmation timeout ({max_attempts}s). Transaction may still be processing."`. -/
def timeoutMessage : String :=
  "Transaction confirmation timeout (60s). Transaction may still be processing."

/-- The dict returned when the confirmation wait elapses
(`merchant.py` lines 316-321): failure, with the timeout text and the
transaction signature attached. -/
def timeoutResult (txSig : String) : VerifyResult :=
  { success := false, verified := false, settled := false,
    error := some timeoutMessage,
    transaction_signature := some txSig, message := none }

/-- The confirmation polling loop of `_verify_and_settle_solana`
(lines 237-321), with the remaining attempts as fuel: a status whose
`confirmation_status` is set returns immediately (failure if `err` is set,
success otherwise, attempting `get_transaction` for the detail message); any
other answer waits one second and retries; exhausted fuel is the timeout. -/
def pollLoop (L : Ledger) (txSig : String) : Nat → Nat → VerifyResult × List LedgerOp
  | _, 0 => (timeoutResult txSig, [])
  | attempt, fuel + 1 =>
    match L.poll attempt with
    | .statusInfo (some _) (some e) =>
        ({ success := false, verified := false, settled := false,
           error := some ("Transaction failed on blockchain: " ++ e),
           transaction_signature := some txSig, message := none }, [.pollOp attempt])
    | .statusInfo (some _) none =>
        if L.getTxOk then
          ({ success := true, verified := true, settled := true, error := none,
             transaction_signature := some txSig,
             message := some ("Payment verified and settled via Solana (tx: " ++
               strTake txSig 16 ++ "...)") }, [.pollOp attempt, .getTransactionOp])
        else
          ({ success := true, verified := true, settled := true, error := none,
             transaction_signature := some txSig,
             message := some ("Payment verified via Solana (tx: " ++
               strTake txSig 16 ++ "...)") }, [.pollOp attempt, .getTransactionOp])
    | .statusInfo none _ =>
        let out := pollLoop L txSig (attempt + 1) fuel
        (out.1, .pollOp attempt :: out.2)
    | .noStatus =>
        let out := pollLoop L txSig (attempt + 1) fuel
        (out.1, .pollOp attempt :: out.2)

/-- `_verify_and_settle_solana` (`merchant.py` lines 146-334): check the
network, decode the base58 payload, broadcast it, and poll for confirmation.
Returns the result dict together with the trace of ledger operations. -/
def verify_and_settle_solana (proof : PaymentProof) (expected_price : String)
    (L : Ledger) : VerifyResult × List LedgerOp :=
  if proof.network = "solana-devnet" ∨ proof.network = "solana-mainnet" then
    match L.decodeErr proof.transaction_hash with
    | some e =>
        ({ success := false, verified := false, settled := false,
           error := some ("Invalid transaction format: " ++ e),
           transaction_signature := none, message := none }, [])
    | none =>
        match L.broadcast proof.transaction_hash with
        | .accepted txSig =>
            let out := pollLoop L txSig 0 max_attempts
            (out.1, .broadcastOp :: out.2)
        | .rejected e =>
            ({ success := false, verified := false, settled := false,
               error := some ("Transaction rejected by network: " ++ e),
               transaction_signature := none, message := none }, [.broadcastOp])
        | .unexpectedResp r =>
            ({ success := false, verified := false, settled := false,
               error := some ("Failed to broadcast transaction: " ++ r),
               transaction_signature := none, message := none }, [.broadcastOp])
        | .broadcastExn e =>
            ({ success := false, verified := false, settled := false,
               error := some ("Transaction broadcast failed: " ++ e),
               transaction_signature := none, message := none }, [.broadcastOp])
  else
    ({ success := false, verified := false, settled := false,
       error := some ("Unsupported Solana network: " ++ proof.network),
       transaction_signature := none, message := none }, [])

/-- The token-info dict prepared by `handle_payment_proof` (lines 693-700)
when the catalog entry has a `token_address` key. -/
structure TokenInfo where
  amount : String
  address : String
  decimals : Nat
  name : String
  deriving DecidableEq, Repr

/-- Build the token-info dict from a catalog entry; `none` when the entry has
no `token_address` key. -/
def tokenInfoOf (info : ResourceInfo) : Option TokenInfo :=
  match info.token_address, info.price with
  | some addr, .tokenPrice t =>
      some { amount := t.amount, address := addr,
             decimals := info.token_decimals.getD 0, name := info.token_name.getD "" }
  | _, _ => none

/-- `verify_and_settle_payment` (lines 113-144): Solana networks go through
the direct RPC path, everything else through the external x402 EVM SDK,
modelled by the `evmResult` oracle answer. -/
def verify_and_settle_payment (proof : PaymentProof) (expected_price : String)
    (token_info : Option TokenInfo) (L : Ledger) : VerifyResult × List LedgerOp :=
  if startswith proof.network "solana" then
    verify_and_settle_solana proof expected_price L
  else
    (L.evmResult, [])

/-- Decision taken by `handle_payment_proof` before the verifier is invoked
(lines 650-708): either an error reply (sent without touching storage) or the
retrieved record plus token info, with which verification proceeds. -/
inductive ProofCheck
  | rejectMsg (e : ResourceError)
  | proceed (payment_data : PaymentData) (token_info : Option TokenInfo)
  deriving DecidableEq, Repr

/-- The pre-verification checks of `handle_payment_proof` (lines 650-708):
look up the record by payment id (`UnknownPayment` when absent), compare the
resource id and the requester, and re-read the catalog. None of these steps
writes to storage, and the stored record's `status` field is never examined. -/
def paymentProofPrecheck (store : Store) (sender : String) (proof : PaymentProof) :
    ProofCheck :=
  match storageGet ("payment_" ++ proof.payment_id) store with
  | none =>
      .rejectMsg { success := false, payment_id := some proof.payment_id,
                   resource_id := proof.resource_id, error := "Invalid payment ID",
                   message := "Payment ID not found or expired" }
  | some payment_data =>
      if payment_data.resource_id ≠ proof.resource_id then
        .rejectMsg { success := false, payment_id := some proof.payment_id,
                     resource_id := proof.resource_id, error := "Resource mismatch",
                     message := "Payment does not match requested resource" }
      else if payment_data.requester ≠ sender then
        .rejectMsg { success := false, payment_id := some proof.payment_id,
                     resource_id := proof.resource_id, error := "Requester mismatch",
                     message := "Payment proof must come from original requester" }
      else
        match get_price_for_resource proof.resource_id with
        | none =>
            .rejectMsg { success := false, payment_id := some proof.payment_id,
                         resource_id := proof.resource_id, error := "Processing error",
                         message := "Error verifying payment: Unknown resource: " ++
                           proof.resource_id }
        | some info => .proceed payment_data (tokenInfoOf info)

/-- The post-verification half of `handle_payment_proof` (lines 710-776):
on a verified result the record snapshot is overwritten as `completed` with
`verified_at` and `transaction_hash` added and a `ResourceAccess` with the
premium payload is sent; otherwise the snapshot is overwritten as `failed`
with the result's error text and a `ResourceError` is sent. -/
def paymentProofFinish (store : Store) (proof : PaymentProof)
    (payment_data : PaymentData) (result : VerifyResult) (now : String) :
    Store × Reply :=
  if result.success && result.verified then
    (storageSet ("payment_" ++ proof.payment_id)
       { payment_data with
           status := "completed", verified_at := some now,
           transaction_hash := some proof.transaction_hash } store,
     .resourceAccess { success := true, payment_id := proof.payment_id,
                       resource_id := proof.resource_id,
                       resource_data := some (get_premium_resource proof.resource_id),
                       message := "Access granted to " ++ proof.resource_id,
                       verified_at := now })
  else
    (storageSet ("payment_" ++ proof.payment_id)
       { payment_data with status := "failed", error := result.error } store,
     .resourceError { success := false, payment_id := some proof.payment_id,
                      resource_id := proof.resource_id,
                      error := "Payment verification failed",
                      message := result.error.getD "Could not verify payment with facilitator" })

/-- `handle_payment_proof` (`merchant.py` lines 625-786) for a configured
facilitator service: prechecks, then verification against the ledger oracle,
then the terminal write and reply. `now` stands for `datetime.now()`. -/
def handle_payment_proof (store : Store) (sender : String) (proof : PaymentProof)
    (L : Ledger) (now : String) : Store × Reply :=
  match paymentProofPrecheck store sender proof with
  | .rejectMsg e => (store, .resourceError e)
  | .proceed payment_data token_info =>
      let out := verify_and_settle_payment proof payment_data.price token_info L
      paymentProofFinish store proof payment_data out.1 now

/-- Whether a `PaymentProof` message makes `handle_payment_proof` invoke the
settlement verifier (i.e. the prechecks pass). -/
def startsVerification (store : Store) (sender : String) (proof : PaymentProof) : Bool :=
  match paymentProofPrecheck store sender proof with
  | .proceed _ _ => true
  | .rejectMsg _ => false

/-- `handle_resource_request` (`merchant.py` lines 549-610) for a configured
facilitator service. `merchantAddress` and `network` are the env-configured
`MERCHANT_AGENT_ADDRESS` and `PAYMENT_NETWORK`; `uuidHex` is the value of
`uuid.uuid4().hex[:16]` drawn for this call and `now` is `datetime.now()`. -/
def handle_resource_request (merchantAddress network : String) (store : Store)
    (sender : String) (request : ResourceRequest) (uuidHex : String) (now : String) :
    Store × Reply :=
  match get_price_for_resource request.resource_id with
  | none =>
      (store, .resourceError
        { success := false, payment_id := none, resource_id := request.resource_id,
          error := "Resource not found",
          message := "Unknown resource: " ++ request.resource_id })
  | some info =>
      let payment_id := "pay_" ++ uuidHex
      let payment_data : PaymentData :=
        { resource_id := request.resource_id, requester := sender, created_at := now,
          price := pyStrPrice info.price, status := "pending",
          verified_at := none, transaction_hash := none, error := none }
      (storageSet ("payment_" ++ payment_id) payment_data store,
       .paymentRequired
         { resource_id := request.resource_id,
           price := requiredPriceString info.price,
           pay_to_address := merchantAddress, network := network,
           token_address := info.token_address,
           token_decimals := if info.token_address.isSome then info.token_decimals else none,
           token_name := if info.token_address.isSome then info.token_name else none,
           payment_id := payment_id,
           message := "Payment required for " ++ info.description })

/-- The payment ids issued by a reply (a fresh one for `PaymentRequired`,
none otherwise). -/
def replyPaymentIds : Reply → List String
  | .paymentRequired pr => [pr.payment_id]
  | _ => []

/-- A process-lifetime run of the provider: the inbound `ResourceRequest`
messages are processed in order, the i-th call drawing `uuid i` as its
`uuid4().hex[:16]` value. Returns the final store and the issued payment ids. -/
def runRequests (merchantAddress network : String) (uuid : Nat → String) (now : String) :
    List (String × ResourceRequest) → Nat → Store → Store × List String
  | [], _, store => (store, [])
  | (sender, req) :: rest, i, store =>
      let step := handle_resource_request merchantAddress network store sender req (uuid i) now
      let out := runRequests merchantAddress network uuid now rest (i + 1) step.1
      (out.1, replyPaymentIds step.2 ++ out.2)

/-- Interleaved processing of the same `PaymentProof` submitted twice while
the first verification is still in flight, following the concurrency model of
the runtime: the handler's prechecks run synchronously, the handler then
suspends awaiting its verifier, so the duplicate's prechecks read the store
as it was left by the first prechecks (which write nothing), and the two
post-verification writes land in arrival order. Returns the final store and
the number of verifier invocations started. -/
def doubleSubmission (store : Store) (sender : String) (proof : PaymentProof)
    (L1 L2 : Ledger) (now1 now2 : String) : Store × Nat :=
  match paymentProofPrecheck store sender proof with
  | .rejectMsg _ =>
      ((handle_payment_proof store sender proof L2 now2).1, 0)
  | .proceed pd1 ti1 =>
      match paymentProofPrecheck store sender proof with
      | .rejectMsg _ =>
          ((paymentProofFinish store proof pd1
              (verify_and_settle_payment proof pd1.price ti1 L1).1 now1).1, 1)
      | .proceed pd2 ti2 =>
          let s1 := (paymentProofFinish store proof pd1
              (verify_and_settle_payment proof pd1.price ti1 L1).1 now1).1
          ((paymentProofFinish s1 proof pd2
              (verify_and_settle_payment proof pd2.price ti2 L2).1 now2).1, 2)

/-- A poll answer that does not end the loop: no status yet, or a status
whose `confirmation_status` field is not yet set. -/
def isNonTerminal : PollResult → Bool
  | .noStatus => true
  | .statusInfo none _ => true
  | .statusInfo (some _) _ => false

/-- Oracle environment of the requester-side transaction builder
(`client.py`): availability of the Solana library, the configured
`CLIENT_WALLET_PRIVATE_KEY`, the derived public key of a decoded keypair
(`none` when decoding raises), the latest blockhash, and the base58
serialization of the signed transfer built from payer, recipient, lamports
and blockhash. -/
structure ClientEnv where
  solanaAvailable : Bool
  privateKey : String
  keypairPubkey : String → Option String
  latestBlockhash : String
  signAndSerialize : String → String → Int → String → String

/-- A ledger-facing operation of the transaction builder. -/
inductive ClientOp
  | getLatestBlockhashOp
  | signOp
  | broadcastOp
  deriving DecidableEq, Repr

/-- `create_signed_solana_transaction` (`client.py` lines 253-344): guard
checks, key decoding, payer-identity check, then fetch a blockhash, build a
single transfer instruction and sign it — returning the artifact without
submitting it. The Python `int(amount_sol * 1_000_000_000)` conversion uses a
float; it is modelled exactly on rationals (the claims settled here do not
depend on the numeric value). The returned trace lists the ledger operations
performed. -/
def create_signed_solana_transaction (env : ClientEnv)
    (from_address to_address : String) (amount_sol : Rat) (network : String) :
    (Bool × String × String) × List ClientOp :=
  if env.solanaAvailable = false then
    ((false, "", "Solana library not installed"), [])
  else if env.privateKey = "" then
    ((false, "", "CLIENT_WALLET_PRIVATE_KEY not set in .env"), [])
  else if network = "solana-devnet" ∨ network = "solana-mainnet" then
    match env.keypairPubkey env.privateKey with
    | none => ((false, "", "Invalid private key format"), [])
    | some pk =>
      if pk ≠ from_address then
        ((false, "", "Private key doesn\x27t match wallet address"), [])
      else
        ((true,
          env.signAndSerialize pk to_address (amount_sol * 1000000000).floor
            env.latestBlockhash,
          "Transaction signed successfully"),
         [.getLatestBlockhashOp, .signOp])
  else
    ((false, "", "Unknown network: " ++ network), [])

/-! Concrete instances used by counterexamples and witnesses. -/

/-- A record for `premium_weather` that has already reached COMPLETED. -/
def cPdCompleted : PaymentData :=
  { resource_id := "premium_weather", requester := "agentA", created_at := "t0",
    price := "$0.001", status := "completed", verified_at := some "t1",
    transaction_hash := some "TX0", error := none }

/-- A store holding only the completed record under `payment_pay_1`. -/
def cStoreCompleted : Store := [("payment_pay_1", cPdCompleted)]

/-- A PENDING record for `premium_weather` requested by `agentA`. -/
def cPdPending : PaymentData :=
  { resource_id := "premium_weather", requester := "agentA", created_at := "t0",
    price := "$0.001", status := "pending", verified_at := none,
    transaction_hash := none, error := none }

/-- A store holding only the pending record under `payment_pay_1`. -/
def cStorePending : Store := [("payment_pay_1", cPdPending)]

/-- A proof matching the `pay_1` record. -/
def cProof : PaymentProof :=
  { payment_id := "pay_1", resource_id := "premium_weather",
    transaction_hash := "RAWTX", from_address := "walletA",
    to_address := "merchantW", amount := "$0.001", network := "solana-devnet" }

/-- The same proof with a wrong resource id. -/
def cProofWrongResource : PaymentProof :=
  { cProof with resource_id := "premium_api" }

/-- An unused EVM oracle answer. -/
def cEvmUnused : VerifyResult :=
  { success := false, verified := false, settled := false, error := none,
    transaction_signature := none, message := none }

/-- A ledger whose node rejects the broadcast. -/
def cLedgerReject : Ledger :=
  { decodeErr := fun _ => none, broadcast := fun _ => .rejected "stale blockhash",
    poll := fun _ => .noStatus, getTxOk := true, evmResult := cEvmUnused }

/-- A ledger that accepts the broadcast and confirms on the first poll. -/
def cLedgerConfirm : Ledger :=
  { decodeErr := fun _ => none, broadcast := fun _ => .accepted "SIG1",
    poll := fun _ => .statusInfo (some "finalized") none, getTxOk := true,
    evmResult := cEvmUnused }

/-- A ledger that accepts the broadcast with signature `sig` and never
reports any status. -/
def cLedgerNeverConfirms (sig : String) : Ledger :=
  { decodeErr := fun _ => none, broadcast := fun _ => .accepted sig,
    poll := fun _ => .noStatus, getTxOk := true, evmResult := cEvmUnused }

/-- A PENDING record for the token-priced `premium_data` resource. -/
def cPdDataPending : PaymentData :=
  { resource_id := "premium_data", requester := "agentB", created_at := "t0",
    price := usdcPremiumDataPrice.pyStr, status := "pending",
    verified_at := none, transaction_hash := none, error := none }

/-- A store holding the pending `premium_data` record under `payment_pay_2`. -/
def cStoreDataPending : Store := [("payment_pay_2", cPdDataPending)]

/-- A proof for `pay_2` claiming 9999 minor units — one minor unit below the
expected 10000. -/
def cProofUnderpaid : PaymentProof :=
  { payment_id := "pay_2", resource_id := "premium_data",
    transaction_hash := "RAWTX2", from_address := "walletB",
    to_address := "merchantW", amount := "9999", network := "solana-devnet" }

/-- The catalog entry of `premium_weather`. -/
def cInfoWeather : ResourceInfo :=
  { price := .strPrice "$0.001", token_address := none, token_decimals := none,
    token_name := none, description := "Real-time premium weather data" }

/-- A client environment whose configured key derives the address `PKA`. -/
def cEnvMismatch : ClientEnv :=
  { solanaAvailable := true, privateKey := "sk", keypairPubkey := fun _ => some "PKA",
    latestBlockhash := "BH", signAndSerialize := fun _ _ _ _ => "SIGNEDTX" }

/-- An injective uuid source for witnesses. -/
def cUuid : Nat → String := fun n => String.mk (List.replicate n 'a')

/-- Two identical requests from the same requester for the same resource. -/
def cTwoRequests : List (String × ResourceRequest) :=
  [("agentA", { resource_id := "premium_weather", requester_address := none }),
   ("agentA", { resource_id := "premium_weather", requester_address := none })]

/-! General lemmas about the embedded operations. -/

/-- The data of an appended string is the appended data. -/
theorem string_data_append (a b : String) : (a ++ b).data = a.data ++ b.data := by
  cases a; cases b; rfl

/-- String append is left-cancellative. -/
theorem string_append_left_cancel {s a b : String} (h : s ++ a = s ++ b) : a = b := by
  have hd := congrArg String.data h
  rw [string_data_append, string_data_append] at hd
  have h2 := List.append_cancel_left hd
  cases a; cases b
  exact congrArg String.mk h2

/-- Reading a key immediately after setting it returns the stored value. -/
theorem storageGet_set_self (k : String) (v : PaymentData) (s : Store) :
    storageGet k (storageSet k v s) = some v := by
  unfold storageGet storageSet
  rw [List.find?_cons_of_pos]
  · rfl
  · simp

/-- If every attempt in reach answers a non-terminal status, the polling loop
returns the timeout result. -/
theorem pollLoop_timeout (L : Ledger) (txSig : String) :
    ∀ (fuel attempt : Nat),
      (∀ i, attempt ≤ i → i < attempt + fuel → isNonTerminal (L.poll i) = true) →
      (pollLoop L txSig attempt fuel).1 = timeoutResult txSig := by
  intro fuel
  induction fuel with
  | zero => intro attempt _; rfl
  | succ n ih =>
      intro attempt h
      have hA : isNonTerminal (L.poll attempt) = true := h attempt (Nat.le_refl attempt) (by omega)
      have hrec := ih (attempt + 1) (fun i h1 h2 => h i (by omega) (by omega))
      unfold pollLoop
      cases hp : L.poll attempt with
      | noStatus => simpa using hrec
      | statusInfo cs err =>
          cases cs with
          | none => simpa using hrec
          | some c =>
              rw [hp] at hA
              simp [isNonTerminal] at hA

/-- On the prechecks passing, `handle_payment_proof` proceeds with the stored
record and the catalog token info; the record's status is never consulted. -/
theorem paymentProofPrecheck_proceed (store : Store) (sender : String) (proof : PaymentProof)
    (payment_data : PaymentData) (info : ResourceInfo)
    (hget : storageGet ("payment_" ++ proof.payment_id) store = some payment_data)
    (hres : payment_data.resource_id = proof.resource_id)
    (hreq : payment_data.requester = sender)
    (hinfo : get_price_for_resource proof.resource_id = some info) :
    paymentProofPrecheck store sender proof = .proceed payment_data (tokenInfoOf info) := by
  unfold paymentProofPrecheck
  rw [hget]
  simp [hres, hreq, hinfo]

/-- `handle_payment_proof` on a passing precheck is verification followed by
the terminal write. -/
theorem handle_payment_proof_proceed (store : Store) (sender : String) (proof : PaymentProof)
    (L : Ledger) (now : String) (pd : PaymentData) (ti : Option TokenInfo)
    (hpc : paymentProofPrecheck store sender proof = .proceed pd ti) :
    handle_payment_proof store sender proof L now =
      paymentProofFinish store proof pd (verify_and_settle_payment proof pd.price ti L).1 now := by
  unfold handle_payment_proof
  rw [hpc]

/-- Solana-network proofs are verified through the direct RPC path. -/
theorem verify_payment_solana (proof : PaymentProof) (expected_price : String)
    (ti : Option TokenInfo) (L : Ledger) (hnet : proof.network = "solana-devnet") :
    verify_and_settle_payment proof expected_price ti L =
      verify_and_settle_solana proof expected_price L := by
  have hcond : startswith "solana-devnet" "solana" = true := by decide
  unfold verify_and_settle_payment
  rw [hnet, if_pos hcond]

/-- A broadcast rejection is terminal: the failure dict is returned after a
single broadcast operation and no polling. -/
theorem verify_solana_rejected (proof : PaymentProof) (expected_price e : String) (L : Ledger)
    (hnet : proof.network = "solana-devnet")
    (hdec : L.decodeErr proof.transaction_hash = none)
    (hbc : L.broadcast proof.transaction_hash = .rejected e) :
    verify_and_settle_solana proof expected_price L =
      ({ success := false, verified := false, settled := false,
         error := some ("Transaction rejected by network: " ++ e),
         transaction_signature := none, message := none }, [.broadcastOp]) := by
  unfold verify_and_settle_solana
  rw [hnet, if_pos (Or.inl rfl), hdec, hbc]

/-- A broadcast acceptance followed by sixty non-terminal polls yields the
timeout result, which carries the transaction signature. -/
theorem verify_solana_timeout (proof : PaymentProof) (expected_price sig : String) (L : Ledger)
    (hnet : proof.network = "solana-devnet")
    (hdec : L.decodeErr proof.transaction_hash = none)
    (hbc : L.broadcast proof.transaction_hash = .accepted sig)
    (hpoll : ∀ i, i < max_attempts → isNonTerminal (L.poll i) = true) :
    (verify_and_settle_solana proof expected_price L).1 = timeoutResult sig := by
  unfold verify_and_settle_solana
  rw [hnet, if_pos (Or.inl rfl), hdec, hbc]
  simpa using pollLoop_timeout L sig max_attempts 0 (fun i _ h2 => hpoll i (by omega))

/-- The terminal write of a failed verification result. -/
theorem paymentProofFinish_failure (store : Store) (proof : PaymentProof)
    (payment_data : PaymentData) (result : VerifyResult) (now : String)
    (hs : result.success = false) :
    paymentProofFinish store proof payment_data result now =
      (storageSet ("payment_" ++ proof.payment_id)
         { payment_data with status := "failed", error := result.error } store,
       .resourceError { success := false, payment_id := some proof.payment_id,
                        resource_id := proof.resource_id,
                        error := "Payment verification failed",
                        message := result.error.getD "Could not verify payment with facilitator" }) := by
  unfold paymentProofFinish
  rw [hs]
  rw [if_neg (by simp)]

/-! Claim theorems. -/

/-- Claim C1, counterexample: a `PaymentProof` for the already-COMPLETED
record `pay_1` is not answered with the UnknownPayment error
(`"Invalid payment ID"`); instead verification is re-run and, the ledger
rejecting the re-broadcast, the COMPLETED record is overwritten to `failed`. -/
theorem completed_record_not_protected_counterexample :
    cPdCompleted.status = "completed" ∧
    (handle_payment_proof cStoreCompleted "agentA" cProof cLedgerReject "t2").2 =
      .resourceError { success := false, payment_id := some "pay_1",
                       resource_id := "premium_weather",
                       error := "Payment verification failed",
                       message := "Transaction rejected by network: stale blockhash" } ∧
    storageGet "payment_pay_1"
        (handle_payment_proof cStoreCompleted "agentA" cProof cLedgerReject "t2").1 =
      some { cPdCompleted with
               status := "failed",
               error := some "Transaction rejected by network: stale blockhash" } := by
  decide

/-- Claim C1, amended: `handle_payment_proof` never consults the stored
record's status. Any record whose resource id and requester match the proof —
including one already COMPLETED — makes the prechecks pass, verification is
re-run, and the record is overwritten with a fresh terminal status; the
UnknownPayment error arises only when no record exists for the payment id. -/
theorem matching_record_always_reverified
    (store : Store) (sender now : String) (proof : PaymentProof) (L : Ledger)
    (payment_data : PaymentData) (info : ResourceInfo)
    (hget : storageGet ("payment_" ++ proof.payment_id) store = some payment_data)
    (hres : payment_data.resource_id = proof.resource_id)
    (hreq : payment_data.requester = sender)
    (hinfo : get_price_for_resource proof.resource_id = some info) :
    startsVerification store sender proof = true ∧
    ∃ updated : PaymentData,
      (handle_payment_proof store sender proof L now).1 =
        storageSet ("payment_" ++ proof.payment_id) updated store ∧
      (updated.status = "completed" ∨ updated.status = "failed") := by
  have hpc := paymentProofPrecheck_proceed store sender proof payment_data info
    hget hres hreq hinfo
  constructor
  · unfold startsVerification
    rw [hpc]
  · rw [handle_payment_proof_proceed store sender proof L now payment_data
      (tokenInfoOf info) hpc]
    unfold paymentProofFinish
    by_cases hs : ((verify_and_settle_payment proof payment_data.price (tokenInfoOf info) L).1.success &&
        (verify_and_settle_payment proof payment_data.price (tokenInfoOf info) L).1.verified) = true
    · rw [if_pos hs]
      exact ⟨_, rfl, Or.inl rfl⟩
    · rw [if_neg hs]
      exact ⟨_, rfl, Or.inr rfl⟩

/-- Claim C1, amended, witness at the COMPLETED record `pay_1`. -/
theorem matching_record_always_reverified_witness :
    (storageGet ("payment_" ++ cProof.payment_id) cStoreCompleted = some cPdCompleted ∧
     cPdCompleted.resource_id = cProof.resource_id ∧
     cPdCompleted.requester = "agentA" ∧
     get_price_for_resource cProof.resource_id = some cInfoWeather ∧
     cPdCompleted.status = "completed") ∧
    (startsVerification cStoreCompleted "agentA" cProof = true ∧
     ∃ updated : PaymentData,
       (handle_payment_proof cStoreCompleted "agentA" cProof cLedgerReject "t2").1 =
         storageSet ("payment_" ++ cProof.payment_id) updated cStoreCompleted ∧
       (updated.status = "completed" ∨ updated.status = "failed")) :=
  ⟨⟨by decide, by decide, by decide, by decide, by decide⟩,
   matching_record_always_reverified cStoreCompleted "agentA" "t2" cProof cLedgerReject
     cPdCompleted cInfoWeather (by decide) (by decide) (by decide) (by decide)⟩

/-- Claim C2, counterexample: submitting the same valid proof twice for the
still-PENDING record `pay_1`, with the duplicate arriving while the first
verification is in flight, starts two verifier invocations. -/
theorem double_submission_two_verifications_counterexample :
    cPdPending.status = "pending" ∧
    (doubleSubmission cStorePending "agentA" cProof cLedgerConfirm cLedgerConfirm
        "t1" "t2").2 = 2 := by
  decide

/-- Claim C2, amended: the code has no VERIFYING status and performs no
check-and-set on the record before invoking the verifier; whenever the
prechecks pass, a duplicate proof processed while the first verification is
in flight reads the unmodified record, passes the same prechecks, and starts
a second verification — after which both verifications perform their own
terminal write. -/
theorem no_check_and_set_double_verification
    (store : Store) (sender : String) (proof : PaymentProof) (L1 L2 : Ledger)
    (now1 now2 : String) (h : startsVerification store sender proof = true) :
    (doubleSubmission store sender proof L1 L2 now1 now2).2 = 2 := by
  unfold startsVerification at h
  unfold doubleSubmission
  cases hpc : paymentProofPrecheck store sender proof with
  | rejectMsg e =>
      rw [hpc] at h
      exact absurd h (by simp)
  | proceed pd ti => rfl

/-- Claim C2, amended, witness at the pending record `pay_1`. -/
theorem no_check_and_set_double_verification_witness :
    startsVerification cStorePending "agentA" cProof = true ∧
    (doubleSubmission cStorePending "agentA" cProof cLedgerConfirm cLedgerReject
        "t1" "t2").2 = 2 :=
  ⟨by decide,
   no_check_and_set_double_verification cStorePending "agentA" cProof cLedgerConfirm
     cLedgerReject "t1" "t2" (by decide)⟩

/-- Claim C3, counterexample: the record for `pay_2` prices `premium_data` at
10000 minor units, the proof claims 9999 — one minor unit below — yet once
the ledger confirms the transaction, verification succeeds and access is
granted: no amount comparison happens at all. -/
theorem underpaid_proof_accepted_counterexample :
    usdcPremiumDataPrice.amount = "10000" ∧
    cProofUnderpaid.amount = "9999" ∧
    cPdDataPending.price = usdcPremiumDataPrice.pyStr ∧
    (handle_payment_proof cStoreDataPending "agentB" cProofUnderpaid cLedgerConfirm "t3").2 =
      .resourceAccess { success := true, payment_id := "pay_2", resource_id := "premium_data",
                        resource_data := some .premiumAnalyticsData,
                        message := "Access granted to premium_data", verified_at := "t3" } := by
  decide

/-- Claim C3, amended: the Solana settlement path performs no price or amount
comparison whatsoever — its outcome is syntactically independent of both the
proof's claimed amount and the expected price passed to it. -/
theorem solana_verify_ignores_amount (p : PaymentProof) (a1 a2 e1 e2 : String) (L : Ledger) :
    verify_and_settle_solana { p with amount := a1 } e1 L =
      verify_and_settle_solana { p with amount := a2 } e2 L := rfl

/-- Claim C4, counterexample: after a confirmation timeout the handler's
output is identical for two different broadcast signatures, so the signature
is not retrievable from the FAILED record (nor from the reply): the record
keeps `transaction_hash := none` and only the fixed timeout text — even
though the verifier's own result dict does carry the signature. -/
theorem timeout_signature_not_persisted_counterexample :
    handle_payment_proof cStorePending "agentA" cProof (cLedgerNeverConfirms "SIGX") "t2" =
      handle_payment_proof cStorePending "agentA" cProof (cLedgerNeverConfirms "SIGY") "t2" ∧
    (verify_and_settle_solana cProof cPdPending.price
        (cLedgerNeverConfirms "SIGX")).1.transaction_signature = some "SIGX" ∧
    storageGet "payment_pay_1"
        (handle_payment_proof cStorePending "agentA" cProof
          (cLedgerNeverConfirms "SIGX") "t2").1 =
      some { cPdPending with status := "failed", error := some timeoutMessage } := by
  decide

/-- Claim C4, amended: when the sixty one-second polls all come back
non-terminal, the verifier returns FAILED with the ConfirmationTimeout detail
and the transaction signature in its result dict; `handle_payment_proof`
marks the record FAILED with that detail but discards the signature — the
FAILED record and the error reply contain only the fixed timeout text, so the
broadcast transaction reference is not retrievable from the record. -/
theorem timeout_marks_failed_without_reference
    (store : Store) (sender now : String) (proof : PaymentProof) (L : Ledger)
    (payment_data : PaymentData) (info : ResourceInfo) (sig : String)
    (hget : storageGet ("payment_" ++ proof.payment_id) store = some payment_data)
    (hres : payment_data.resource_id = proof.resource_id)
    (hreq : payment_data.requester = sender)
    (hinfo : get_price_for_resource proof.resource_id = some info)
    (hnet : proof.network = "solana-devnet")
    (hdec : L.decodeErr proof.transaction_hash = none)
    (hbc : L.broadcast proof.transaction_hash = .accepted sig)
    (hpoll : ∀ i, i < max_attempts → isNonTerminal (L.poll i) = true) :
    (verify_and_settle_solana proof payment_data.price L).1 = timeoutResult sig ∧
    handle_payment_proof store sender proof L now =
      (storageSet ("payment_" ++ proof.payment_id)
         { payment_data with status := "failed", error := some timeoutMessage } store,
       .resourceError { success := false, payment_id := some proof.payment_id,
                        resource_id := proof.resource_id,
                        error := "Payment verification failed",
                        message := timeoutMessage }) := by
  have hv := verify_solana_timeout proof payment_data.price sig L hnet hdec hbc hpoll
  refine ⟨hv, ?_⟩
  have hpc := paymentProofPrecheck_proceed store sender proof payment_data info
    hget hres hreq hinfo
  rw [handle_payment_proof_proceed store sender proof L now payment_data
    (tokenInfoOf info) hpc]
  rw [verify_payment_solana proof payment_data.price (tokenInfoOf info) L hnet]
  rw [hv]
  rw [paymentProofFinish_failure store proof payment_data (timeoutResult sig) now rfl]
  rfl

/-- Claim C4, amended, witness at the pending record `pay_1` and a ledger
that accepts the broadcast with signature `SIGT` and never reports status. -/
theorem timeout_marks_failed_without_reference_witness :
    (∀ i, i < max_attempts → isNonTerminal ((cLedgerNeverConfirms "SIGT").poll i) = true) ∧
    ((verify_and_settle_solana cProof cPdPending.price
        (cLedgerNeverConfirms "SIGT")).1 = timeoutResult "SIGT" ∧
     handle_payment_proof cStorePending "agentA" cProof (cLedgerNeverConfirms "SIGT") "t2" =
       (storageSet ("payment_" ++ cProof.payment_id)
          { cPdPending with status := "failed", error := some timeoutMessage } cStorePending,
        .resourceError { success := false, payment_id := some cProof.payment_id,
                         resource_id := cProof.resource_id,
                         error := "Payment verification failed",
                         message := timeoutMessage })) :=
  ⟨fun _ _ => rfl,
   timeout_marks_failed_without_reference cStorePending "agentA" "t2" cProof
     (cLedgerNeverConfirms "SIGT") cPdPending cInfoWeather "SIGT"
     (by decide) (by decide) (by decide) (by decide) (by decide) (by decide) (by decide)
     (fun _ _ => rfl)⟩

/-- Claim C5: a request for a resource id absent from the catalog is answered
with the `Resource not found` error, carrying no payment id, and the payment
record store is returned unchanged — no record is created. -/
theorem unknown_resource_no_record
    (merchantAddress network : String) (store : Store) (sender : String)
    (request : ResourceRequest) (uuidHex now : String)
    (h : get_price_for_resource request.resource_id = none) :
    handle_resource_request merchantAddress network store sender request uuidHex now =
      (store, .resourceError
        { success := false, payment_id := none, resource_id := request.resource_id,
          error := "Resource not found",
          message := "Unknown resource: " ++ request.resource_id }) := by
  unfold handle_resource_request
  rw [h]

/-- Claim C5, witness at the unknown resource id `premium_gold`. -/
theorem unknown_resource_no_record_witness :
    get_price_for_resource "premium_gold" = none ∧
    handle_resource_request "M" "solana-devnet" cStorePending "agentC"
        { resource_id := "premium_gold", requester_address := none } "u7" "t7" =
      (cStorePending, .resourceError
        { success := false, payment_id := none, resource_id := "premium_gold",
          error := "Resource not found", message := "Unknown resource: premium_gold" }) :=
  ⟨by decide,
   unknown_resource_no_record "M" "solana-devnet" cStorePending "agentC"
     { resource_id := "premium_gold", requester_address := none } "u7" "t7" (by decide)⟩

/-- Claim C6: whenever `handle_payment_proof` answers with one of the three
precheck errors (`Invalid payment ID`, `Resource mismatch`,
`Requester mismatch`), the payment record store is returned completely
unchanged, so a stored PENDING record stays PENDING with all fields intact. -/
theorem mismatch_errors_leave_store_unchanged
    (store : Store) (sender : String) (proof : PaymentProof) (L : Ledger) (now : String)
    (e : ResourceError)
    (hreply : (handle_payment_proof store sender proof L now).2 = .resourceError e)
    (herr : e.error = "Invalid payment ID" ∨ e.error = "Resource mismatch" ∨
            e.error = "Requester mismatch") :
    (handle_payment_proof store sender proof L now).1 = store := by
  cases hpc : paymentProofPrecheck store sender proof with
  | rejectMsg e0 =>
      unfold handle_payment_proof
      rw [hpc]
  | proceed pd ti =>
      exfalso
      rw [handle_payment_proof_proceed store sender proof L now pd ti hpc] at hreply
      unfold paymentProofFinish at hreply
      by_cases hs : ((verify_and_settle_payment proof pd.price ti L).1.success &&
          (verify_and_settle_payment proof pd.price ti L).1.verified) = true
      · rw [if_pos hs] at hreply
        simp at hreply
      · rw [if_neg hs] at hreply
        simp only [Prod.snd] at hreply
        rw [Reply.resourceError.injEq] at hreply
        rw [← hreply] at herr
        dsimp only at herr
        exact absurd herr (by decide)

/-- Claim C6, witness at a proof whose resource id disagrees with the
`pay_1` record. -/
theorem mismatch_errors_leave_store_unchanged_witness :
    ((handle_payment_proof cStorePending "agentA" cProofWrongResource cLedgerConfirm "t2").2 =
       .resourceError { success := false, payment_id := some "pay_1",
                        resource_id := "premium_api", error := "Resource mismatch",
                        message := "Payment does not match requested resource" }) ∧
    (handle_payment_proof cStorePending "agentA" cProofWrongResource cLedgerConfirm "t2").1 =
      cStorePending :=
  ⟨by decide,
   mismatch_errors_leave_store_unchanged cStorePending "agentA" cProofWrongResource
     cLedgerConfirm "t2"
     { success := false, payment_id := some "pay_1", resource_id := "premium_api",
       error := "Resource mismatch", message := "Payment does not match requested resource" }
     (by decide) (by decide)⟩

/-- Claim C7: when the node rejects the raw transaction at broadcast time,
the settlement verifier returns failure after exactly one broadcast operation
— no polling and no re-broadcast — and `handle_payment_proof` marks the
record FAILED and replies with an error, releasing no resource payload. -/
theorem broadcast_rejection_terminal_no_retry
    (store : Store) (sender now : String) (proof : PaymentProof) (L : Ledger)
    (payment_data : PaymentData) (info : ResourceInfo) (e : String)
    (hget : storageGet ("payment_" ++ proof.payment_id) store = some payment_data)
    (hres : payment_data.resource_id = proof.resource_id)
    (hreq : payment_data.requester = sender)
    (hinfo : get_price_for_resource proof.resource_id = some info)
    (hnet : proof.network = "solana-devnet")
    (hdec : L.decodeErr proof.transaction_hash = none)
    (hbc : L.broadcast proof.transaction_hash = .rejected e) :
    (verify_and_settle_solana proof payment_data.price L).2 = [.broadcastOp] ∧
    (verify_and_settle_solana proof payment_data.price L).1.success = false ∧
    handle_payment_proof store sender proof L now =
      (storageSet ("payment_" ++ proof.payment_id)
         { payment_data with
             status := "failed",
             error := some ("Transaction rejected by network: " ++ e) } store,
       .resourceError { success := false, payment_id := some proof.payment_id,
                        resource_id := proof.resource_id,
                        error := "Payment verification failed",
                        message := "Transaction rejected by network: " ++ e }) := by
  have hv := verify_solana_rejected proof payment_data.price e L hnet hdec hbc
  refine ⟨by rw [hv], by rw [hv], ?_⟩
  have hpc := paymentProofPrecheck_proceed store sender proof payment_data info
    hget hres hreq hinfo
  rw [handle_payment_proof_proceed store sender proof L now payment_data
    (tokenInfoOf info) hpc]
  rw [verify_payment_solana proof payment_data.price (tokenInfoOf info) L hnet]
  rw [hv]
  rw [paymentProofFinish_failure store proof payment_data _ now rfl]
  rfl

/-- Claim C7, witness at the pending record `pay_1` and a rejecting node. -/
theorem broadcast_rejection_terminal_no_retry_witness :
    (verify_and_settle_solana cProof cPdPending.price cLedgerReject).2 = [.broadcastOp] ∧
    (verify_and_settle_solana cProof cPdPending.price cLedgerReject).1.success = false ∧
    handle_payment_proof cStorePending "agentA" cProof cLedgerReject "t2" =
      (storageSet ("payment_" ++ cProof.payment_id)
         { cPdPending with
             status := "failed",
             error := some ("Transaction rejected by network: " ++ "stale blockhash") }
         cStorePending,
       .resourceError { success := false, payment_id := some cProof.payment_id,
                        resource_id := cProof.resource_id,
                        error := "Payment verification failed",
                        message := "Transaction rejected by network: " ++ "stale blockhash" }) :=
  broadcast_rejection_terminal_no_retry cStorePending "agentA" "t2" cProof cLedgerReject
    cPdPending cInfoWeather "stale blockhash" (by decide) (by decide) (by decide) (by decide)
    (by decide) (by decide) (by decide)

/-- Claim C8: the transaction builder fails with the key-mismatch error and
produces no artifact when the signing key's derived address differs from the
declared payer address, and no execution path of the builder ever performs a
broadcast operation — the signed artifact is returned, never submitted. -/
theorem builder_key_mismatch_and_no_broadcast
    (env : ClientEnv) (from_address to_address : String) (amount_sol : Rat)
    (network : String) :
    ClientOp.broadcastOp ∉
        (create_signed_solana_transaction env from_address to_address amount_sol network).2 ∧
    ∀ pk : String, env.solanaAvailable = true → env.privateKey ≠ "" →
      (network = "solana-devnet" ∨ network = "solana-mainnet") →
      env.keypairPubkey env.privateKey = some pk → pk ≠ from_address →
      create_signed_solana_transaction env from_address to_address amount_sol network =
        ((false, "", "Private key doesn\x27t match wallet address"), []) := by
  constructor
  · unfold create_signed_solana_transaction
    split_ifs
    · simp
    · simp
    · cases env.keypairPubkey env.privateKey with
      | none => simp
      | some pk =>
          dsimp only
          by_cases hk : pk ≠ from_address
          · rw [if_pos hk]; simp
          · rw [if_neg hk]; simp
    · simp
  · intro pk h1 h2 h3 h4 h5
    rcases h3 with h3 | h3 <;>
      simp [create_signed_solana_transaction, h1, h2, h3, h4, h5]

/-- Claim C8, witness at a key deriving `PKA` declared as payer `PKB`. -/
theorem builder_key_mismatch_and_no_broadcast_witness :
    cEnvMismatch.solanaAvailable = true ∧
    cEnvMismatch.privateKey ≠ "" ∧
    ("solana-devnet" = "solana-devnet" ∨ "solana-devnet" = "solana-mainnet") ∧
    cEnvMismatch.keypairPubkey cEnvMismatch.privateKey = some "PKA" ∧
    "PKA" ≠ "PKB" ∧
    create_signed_solana_transaction cEnvMismatch "PKB" "merchantW" 1 "solana-devnet" =
      ((false, "", "Private key doesn\x27t match wallet address"), []) :=
  ⟨by decide, by decide, Or.inl rfl, by decide, by decide,
   (builder_key_mismatch_and_no_broadcast cEnvMismatch "PKB" "merchantW" 1
       "solana-devnet").2 "PKA" (by decide) (by decide) (Or.inl rfl) (by decide) (by decide)⟩

/-- Every payment id issued during a run segment starting at uuid index `i`
comes from a uuid index within that segment. -/
theorem runRequests_ids_mem (merchantAddress network now : String) (uuid : Nat → String) :
    ∀ (reqs : List (String × ResourceRequest)) (i : Nat) (store : Store) (id : String),
      id ∈ (runRequests merchantAddress network uuid now reqs i store).2 →
      ∃ j, i ≤ j ∧ j < i + reqs.length ∧ id = "pay_" ++ uuid j := by
  intro reqs
  induction reqs with
  | nil => intro i store id h; simp [runRequests] at h
  | cons hd tl ih =>
      intro i store id h
      obtain ⟨sender, req⟩ := hd
      simp only [runRequests, List.mem_append] at h
      rcases h with h | h
      · refine ⟨i, Nat.le_refl i, by simp only [List.length_cons]; omega, ?_⟩
        cases hinfo : get_price_for_resource req.resource_id with
        | none => simp [handle_resource_request, hinfo, replyPaymentIds] at h
        | some info =>
            simp [handle_resource_request, hinfo, replyPaymentIds] at h
            exact h
      · obtain ⟨j, hj1, hj2, hj3⟩ := ih (i + 1) _ id h
        exact ⟨j, by omega, by simp only [List.length_cons]; omega, hj3⟩

/-- With an injective uuid source, the payment ids issued during a run are
pairwise distinct. -/
theorem runRequests_ids_pairwise (merchantAddress network now : String) (uuid : Nat → String)
    (huuid : Function.Injective uuid) :
    ∀ (reqs : List (String × ResourceRequest)) (i : Nat) (store : Store),
      ((runRequests merchantAddress network uuid now reqs i store).2).Pairwise
        (fun a b => a ≠ b) := by
  intro reqs
  induction reqs with
  | nil => intro i store; simp [runRequests]
  | cons hd tl ih =>
      intro i store
      obtain ⟨sender, req⟩ := hd
      simp only [runRequests]
      rw [List.pairwise_append]
      refine ⟨?_, ih (i + 1) _, ?_⟩
      · cases hinfo : get_price_for_resource req.resource_id <;>
          simp [handle_resource_request, hinfo, replyPaymentIds]
      · intro a ha b hb
        obtain ⟨j, hj1, hj2, hj3⟩ :=
          runRequests_ids_mem merchantAddress network now uuid tl (i + 1) _ b hb
        cases hinfo : get_price_for_resource req.resource_id with
        | none => simp [handle_resource_request, hinfo, replyPaymentIds] at ha
        | some info =>
            simp [handle_resource_request, hinfo, replyPaymentIds] at ha
            subst ha
            subst hj3
            intro hab
            have h1 : uuid i = uuid j := string_append_left_cancel hab
            have h2 := huuid h1
            omega

/-- Every key present in the store after a run segment was either already
present or was created by some request of the segment. -/
theorem runRequests_keys_mem (merchantAddress network now : String) (uuid : Nat → String) :
    ∀ (reqs : List (String × ResourceRequest)) (i : Nat) (store : Store) (k : String),
      k ∈ ((runRequests merchantAddress network uuid now reqs i store).1.map Prod.fst) →
      k ∈ store.map Prod.fst ∨
        ∃ j, i ≤ j ∧ j < i + reqs.length ∧ k = "payment_" ++ ("pay_" ++ uuid j) := by
  intro reqs
  induction reqs with
  | nil => intro i store k h; exact Or.inl (by simpa [runRequests] using h)
  | cons hd tl ih =>
      intro i store k h
      obtain ⟨sender, req⟩ := hd
      simp only [runRequests] at h
      rcases ih (i + 1) _ k h with h | ⟨j, hj1, hj2, hj3⟩
      · cases hinfo : get_price_for_resource req.resource_id with
        | none =>
            left
            simpa [handle_resource_request, hinfo] using h
        | some info =>
            simp [handle_resource_request, hinfo, storageSet] at h
            rcases h with h | h
            · exact Or.inr ⟨i, Nat.le_refl i, by simp only [List.length_cons]; omega, h⟩
            · exact Or.inl (by simpa using h)
      · exact Or.inr ⟨j, by omega, by simp only [List.length_cons]; omega, hj3⟩

/-- With an injective uuid source, a run whose starting store has pairwise
distinct keys, none of them colliding with a future generated key, ends with
a store whose keys are still pairwise distinct: no record is ever
overwritten. -/
theorem runRequests_keys_pairwise (merchantAddress network now : String) (uuid : Nat → String)
    (huuid : Function.Injective uuid) :
    ∀ (reqs : List (String × ResourceRequest)) (i : Nat) (store : Store),
      (store.map Prod.fst).Pairwise (fun a b => a ≠ b) →
      (∀ k ∈ store.map Prod.fst, ∀ j, i ≤ j → k ≠ "payment_" ++ ("pay_" ++ uuid j)) →
      (((runRequests merchantAddress network uuid now reqs i store).1.map Prod.fst).Pairwise
        (fun a b => a ≠ b)) := by
  intro reqs
  induction reqs with
  | nil => intro i store hpw _; simpa [runRequests] using hpw
  | cons hd tl ih =>
      intro i store hpw hfresh
      obtain ⟨sender, req⟩ := hd
      simp only [runRequests]
      cases hinfo : get_price_for_resource req.resource_id with
      | none =>
          have hstep : (handle_resource_request merchantAddress network store sender req
              (uuid i) now).1 = store := by
            simp [handle_resource_request, hinfo]
          rw [hstep]
          exact ih (i + 1) store hpw (fun k hk j hj => hfresh k hk j (by omega))
      | some info =>
          have hstep : (handle_resource_request merchantAddress network store sender req
              (uuid i) now).1 =
              ("payment_" ++ ("pay_" ++ uuid i),
               { resource_id := req.resource_id, requester := sender, created_at := now,
                 price := pyStrPrice info.price, status := "pending",
                 verified_at := none, transaction_hash := none, error := none }) :: store := by
            simp [handle_resource_request, hinfo, storageSet]
          rw [hstep]
          apply ih (i + 1)
          · rw [List.map_cons, List.pairwise_cons]
            exact ⟨fun k hk => (hfresh k hk i (Nat.le_refl i)).symm, hpw⟩
          · intro k hk j hj
            rw [List.map_cons, List.mem_cons] at hk
            rcases hk with hk | hk
            · subst hk
              intro hkj
              have h1 : "pay_" ++ uuid i = "pay_" ++ uuid j := string_append_left_cancel hkj
              have h2 : uuid i = uuid j := string_append_left_cancel h1
              have h3 := huuid h2
              omega
            · exact hfresh k hk j (by omega)

/-- Claim C9: drawing each payment id from an injective fresh-value source
(modelling `uuid.uuid4().hex[:16]`), a whole process-lifetime run of
`handle_resource_request` — including repeated requests for the same resource
by the same requester — issues pairwise distinct payment ids and ends with a
store whose keys are pairwise distinct, so no record is ever overwritten. -/
theorem payment_ids_fresh_never_overwritten
    (merchantAddress network now : String) (uuid : Nat → String)
    (huuid : Function.Injective uuid) (reqs : List (String × ResourceRequest)) :
    ((runRequests merchantAddress network uuid now reqs 0 []).2).Pairwise
      (fun a b => a ≠ b) ∧
    (((runRequests merchantAddress network uuid now reqs 0 []).1.map Prod.fst).Pairwise
      (fun a b => a ≠ b)) :=
  ⟨runRequests_ids_pairwise merchantAddress network now uuid huuid reqs 0 [],
   runRequests_keys_pairwise merchantAddress network now uuid huuid reqs 0 []
     (by simp) (by simp)⟩

/-- The witness uuid source is injective. -/
theorem cUuid_injective_aux : Function.Injective cUuid := by
  intro a b h
  have h2 := congrArg (fun s : String => s.data.length) h
  simpa [cUuid] using h2

/-- Claim C9, witness: two identical requests from the same requester. -/
theorem payment_ids_fresh_never_overwritten_witness :
    Function.Injective cUuid ∧
    ((runRequests "M" "solana-devnet" cUuid "t0" cTwoRequests 0 []).2).Pairwise
      (fun a b => a ≠ b) ∧
    (((runRequests "M" "solana-devnet" cUuid "t0" cTwoRequests 0 []).1.map Prod.fst).Pairwise
      (fun a b => a ≠ b)) :=
  ⟨cUuid_injective_aux,
   (payment_ids_fresh_never_overwritten "M" "solana-devnet" "t0" cUuid cUuid_injective_aux
      cTwoRequests).1,
   (payment_ids_fresh_never_overwritten "M" "solana-devnet" "t0" cUuid cUuid_injective_aux
      cTwoRequests).2⟩

/-- Claim C10: a catalog price that is not a plain string is always rendered
as the hard-coded `"0.01 USDC"` in the `PaymentRequired` message, whatever
token amount is configured; for `premium_data` the emitted message carries
`"0.01 USDC"` while the stored record's expected price is the Python `str()`
rendering of the `TokenAmount` object, which is not the minor-unit integer
`"10000"`. -/
theorem token_price_hardcoded_string (merchantAddress network : String) (store : Store)
    (sender uuidHex now : String) :
    (∀ t : TokenAmount, requiredPriceString (.tokenPrice t) = "0.01 USDC") ∧
    (handle_resource_request merchantAddress network store sender
        { resource_id := "premium_data", requester_address := none } uuidHex now).2 =
      .paymentRequired
        { resource_id := "premium_data", price := "0.01 USDC",
          pay_to_address := merchantAddress, network := network,
          token_address := some "0x036CbD53842c5426634e7929541eC2318f3dCF7e",
          token_decimals := some 6, token_name := some "USDC",
          payment_id := "pay_" ++ uuidHex,
          message := "Payment required for Premium analytics data" } ∧
    storageGet ("payment_" ++ ("pay_" ++ uuidHex))
        (handle_resource_request merchantAddress network store sender
          { resource_id := "premium_data", requester_address := none } uuidHex now).1 =
      some { resource_id := "premium_data", requester := sender, created_at := now,
             price := usdcPremiumDataPrice.pyStr, status := "pending",
             verified_at := none, transaction_hash := none, error := none } ∧
    usdcPremiumDataPrice.pyStr ≠ "10000" := by
  refine ⟨fun t => rfl, rfl, ?_, by decide⟩
  have hstep : (handle_resource_request merchantAddress network store sender
      { resource_id := "premium_data", requester_address := none } uuidHex now).1 =
      storageSet ("payment_" ++ ("pay_" ++ uuidHex))
        { resource_id := "premium_data", requester := sender, created_at := now,
          price := usdcPremiumDataPrice.pyStr, status := "pending",
          verified_at := none, transaction_hash := none, error := none } store := rfl
  rw [hstep, storageGet_set_self]

end UAgentDemo
